import Mathlib

/-!
# Resource fetch source (`atc/resource/resource_instance_fetch_source.go`)

A shallow embedding of `resourceInstanceFetchSource` with its three methods
`LockName`, `Find` and `Create`.

* Go values `(x, err)` returned by a collaborator are `Except Err α`; an
  `error`-only return is `Except Err Unit`.
* The collaborators (volume lookup, cache metadata store, resource factory,
  fetch executor, volume handle) are interfaces whose implementations live in
  other packages.  They are taken as parameters: every stateful collaborator
  is a function on an arbitrary world `W` that returns its Go result and the
  next world.
* Every collaborator call is recorded, with its arguments and its result, in
  a trace; every logger call is recorded in a separate log.
* Calling a method on a nil interface value is a Go runtime panic; `Create`
  therefore has the extra outcome `Outcome.panicked`.
-/

namespace Concourse

/-! ## Data model -/

/-- Go `error` value (non-nil). -/
abbrev Err := String

/-- Type `atc.Version`. -/
abbrev Version := List (String × String)

/-- Type `atc.Source`. -/
abbrev Source := List (String × String)

/-- Type `atc.Params`. -/
abbrev Params := List (String × String)

/-- Type `atc.MetadataField`. -/
structure MetadataField where
  name : String
  value : String
deriving DecidableEq, Repr

/-- Type `db.ResourceConfigMetadataField`, the stored form of a metadata field. -/
structure ResourceConfigMetadataField where
  name : String
  value : String
deriving DecidableEq, Repr

/-- Type `db.ResourceConfigMetadataFields`. -/
abbrev ResourceConfigMetadataFields := List ResourceConfigMetadataField

/-- Type `db.UsedResourceCache`: the resource cache identity (cache key). -/
structure ResourceCache where
  id : Nat
deriving DecidableEq, Repr

/-- Type `db.ContainerOwner`. -/
structure ContainerOwner where
  id : Nat
deriving DecidableEq, Repr

/-- Type `worker.Volume` (a non-nil volume handle). -/
structure Volume where
  handle : String
  workerName : String
deriving DecidableEq, Repr

/-- Type `worker.VolumeMount`. -/
structure VolumeMount where
  volume : Volume
  mountPath : String
deriving DecidableEq, Repr

/-- Type `worker.Container`, reduced to what `Create` reads: its volume mounts. -/
structure Container where
  volumeMounts : List VolumeMount
deriving DecidableEq, Repr

/-- Type `Resource`, as returned by `ResourceFactory.NewResource`. -/
structure Resource where
  container : Container
deriving DecidableEq, Repr

/-- Type `VersionedSource`: the result of a fetch or of a cache hit.  The volume
is optional because the Go value may carry a nil `worker.Volume`. -/
structure VersionedSource where
  volume : Option Volume
  version : Version
  metadata : List MetadataField
deriving DecidableEq, Repr

/-- Modelled from the spec: `NewGetVersionedSource` is not part of the file; it
builds the Versioned Source from a volume, a version and metadata. -/
def NewGetVersionedSource (volume : Option Volume) (version : Version)
    (metadata : List MetadataField) : VersionedSource :=
  { volume := volume, version := version, metadata := metadata }

/-- Type `lager.Logger`. -/
structure Logger where
  component : String
deriving DecidableEq, Repr

/-- Type `worker.Worker`, reduced to `Name()` and `Description()`. -/
structure Worker where
  name : String
  description : String
deriving DecidableEq, Repr

/-- Type `db.ContainerMetadata`. -/
structure ContainerMetadata where
  type : String
  stepName : String
deriving DecidableEq, Repr

/-- Type `Session`. -/
structure Session where
  metadata : ContainerMetadata
deriving DecidableEq, Repr

/-- Type `Metadata`, reduced to `Env()`. -/
structure Metadata where
  env : List String
deriving DecidableEq, Repr

/-- Type `worker.ImageFetchingDelegate`, reduced to `Stdout()` and `Stderr()`
(writers are identified by a number). -/
structure ImageFetchingDelegate where
  stdout : Nat
  stderr : Nat
deriving DecidableEq, Repr

/-- Type `db.ResourceCacheFactory` (the handle; its behaviour is a collaborator). -/
structure ResourceCacheFactory where
  id : Nat
deriving DecidableEq, Repr

/-- Type `context.Context`. -/
structure Context where
  id : Nat
deriving DecidableEq, Repr

/-- Type `ResourceInstance`, reduced to its getters.  `LockName` and `FindOn`
are collaborator calls and live in `Collaborators`. -/
structure ResourceInstance where
  resourceType : String
  source : Source
  params : Params
  version : Version
  resourceCache : ResourceCache
  containerOwner : ContainerOwner
deriving DecidableEq, Repr

/-- Type `worker.ImageSpec`. -/
structure ImageSpec where
  resourceType : String
deriving DecidableEq, Repr

/-- Type `worker.ContainerSpec`, with the fields `Create` sets. -/
structure ContainerSpec where
  imageSpec : ImageSpec
  tags : List String
  teamID : Int
  env : List String
  type : String
  outputs : List (String × String)
deriving DecidableEq, Repr

/-- Type `worker.WorkerSpec`, with the fields `Create` sets. -/
structure WorkerSpec where
  resourceType : String
  tags : List String
  teamID : Int
  resourceTypes : List String
deriving DecidableEq, Repr

/-- Type `IOConfig`. -/
structure IOConfig where
  stdout : Nat
  stderr : Nat
deriving DecidableEq, Repr

/-- The struct `resourceInstanceFetchSource` (lines 13-24). -/
structure resourceInstanceFetchSource where
  logger : Logger
  resourceInstance : ResourceInstance
  worker : Worker
  resourceTypes : List String
  tags : List String
  teamID : Int
  session : Session
  metadata : Metadata
  imageFetchingDelegate : ImageFetchingDelegate
  dbResourceCacheFactory : ResourceCacheFactory
deriving DecidableEq, Repr

/-- The constructor `NewResourceInstanceFetchSource` (lines 26-50). -/
def NewResourceInstanceFetchSource (logger : Logger) (resourceInstance : ResourceInstance)
    (worker : Worker) (resourceTypes : List String) (tags : List String) (teamID : Int)
    (session : Session) (metadata : Metadata) (imageFetchingDelegate : ImageFetchingDelegate)
    (dbResourceCacheFactory : ResourceCacheFactory) : resourceInstanceFetchSource :=
  { logger := logger
    resourceInstance := resourceInstance
    worker := worker
    resourceTypes := resourceTypes
    tags := tags
    teamID := teamID
    session := session
    metadata := metadata
    imageFetchingDelegate := imageFetchingDelegate
    dbResourceCacheFactory := dbResourceCacheFactory }

/-! ## Collaborator calls -/

/-- The argument list of `resourceFactory.NewResource` (lines 122-131). -/
structure NewResourceArgs where
  ctx : Context
  logger : Logger
  owner : ContainerOwner
  metadata : ContainerMetadata
  containerSpec : ContainerSpec
  workerSpec : WorkerSpec
  resourceTypes : List String
  imageFetchingDelegate : ImageFetchingDelegate
deriving DecidableEq, Repr

/-- The argument list of `resource.Get` (lines 145-155).  The volume is
optional: `Create` passes a nil volume when no mount matched. -/
structure GetArgs where
  ctx : Context
  volume : Option Volume
  ioConfig : IOConfig
  source : Source
  params : Params
  version : Version
deriving DecidableEq, Repr

/-- The collaborators of the fetch source over a world `W`.  The three first
fields are pure; every other field is a call that reads or changes the
world. -/
structure Collaborators (W : Type) where
  /-- The helper `ResourcesDir(suffix)`. -/
  resourcesDir : String → String
  /-- The derivation `resourceInstance.LockName(workerName)`. -/
  lockName : ResourceInstance → String → Except Err String
  /-- The conversion `metadata.ToATCMetadata()`. -/
  toATCMetadata : ResourceConfigMetadataFields → List MetadataField
  /-- Volume lookup `resourceInstance.FindOn(logger, worker)`. -/
  findOn : Logger → ResourceInstance → Worker → W → Except Err (Option Volume) × W
  /-- Store read `dbResourceCacheFactory.ResourceCacheMetadata(cache)`. -/
  resourceCacheMetadata : ResourceCacheFactory → ResourceCache → W →
    Except Err ResourceConfigMetadataFields × W
  /-- Provisioning `NewResourceFactory(worker).NewResource(...)`. -/
  newResource : Worker → NewResourceArgs → W → Except Err Resource × W
  /-- Fetch executor `resource.Get(...)`. -/
  get : Resource → GetArgs → W → Except Err VersionedSource × W
  /-- Volume handle `volume.SetPrivileged(b)`. -/
  setPrivileged : Volume → Bool → W → Except Err Unit × W
  /-- Volume handle `volume.InitializeResourceCache(cache)`. -/
  initializeResourceCache : Volume → ResourceCache → W → Except Err Unit × W
  /-- Store upsert `dbResourceCacheFactory.UpdateResourceCacheMetadata(cache, metadata)`. -/
  updateResourceCacheMetadata : ResourceCacheFactory → ResourceCache → List MetadataField → W →
    Except Err Unit × W

/-- One collaborator call with its arguments and the result it returned. -/
inductive Event where
  | lockName (resourceInstance : ResourceInstance) (workerName : String)
      (res : Except Err String)
  | findOn (logger : Logger) (resourceInstance : ResourceInstance) (worker : Worker)
      (res : Except Err (Option Volume))
  | resourceCacheMetadata (factory : ResourceCacheFactory) (cache : ResourceCache)
      (res : Except Err ResourceConfigMetadataFields)
  | newResource (worker : Worker) (args : NewResourceArgs) (res : Except Err Resource)
  | get (resource : Resource) (args : GetArgs) (res : Except Err VersionedSource)
  | setPrivileged (volume : Volume) (privileged : Bool) (res : Except Err Unit)
  | initializeResourceCache (volume : Volume) (cache : ResourceCache) (res : Except Err Unit)
  | updateResourceCacheMetadata (factory : ResourceCacheFactory) (cache : ResourceCache)
      (metadata : List MetadataField) (res : Except Err Unit)

/-- Which collaborator an event calls. -/
inductive Kind where
  | lockName
  | findOn
  | resourceCacheMetadata
  | newResource
  | get
  | setPrivileged
  | initializeResourceCache
  | updateResourceCacheMetadata
deriving DecidableEq, Repr

/-- The collaborator called by an event. -/
def Event.kind : Event → Kind
  | .lockName _ _ _ => .lockName
  | .findOn _ _ _ _ => .findOn
  | .resourceCacheMetadata _ _ _ => .resourceCacheMetadata
  | .newResource _ _ _ => .newResource
  | .get _ _ _ => .get
  | .setPrivileged _ _ _ => .setPrivileged
  | .initializeResourceCache _ _ _ => .initializeResourceCache
  | .updateResourceCacheMetadata _ _ _ _ => .updateResourceCacheMetadata

/-- The error an event returned, if it returned one. -/
def Event.err? : Event → Option Err
  | .lockName _ _ (.error e) => some e
  | .findOn _ _ _ (.error e) => some e
  | .resourceCacheMetadata _ _ (.error e) => some e
  | .newResource _ _ (.error e) => some e
  | .get _ _ (.error e) => some e
  | .setPrivileged _ _ (.error e) => some e
  | .initializeResourceCache _ _ (.error e) => some e
  | .updateResourceCacheMetadata _ _ _ (.error e) => some e
  | _ => none

/-- Log levels used by the file. -/
inductive LogLevel where
  | debug
  | error
deriving DecidableEq, Repr

/-- One logger call: the session of the logger (`none` for `s.logger` itself),
the level, the message and the error passed along. -/
structure LogEntry where
  session : Option String
  level : LogLevel
  message : String
  err : Option Err
deriving DecidableEq, Repr

/-- How a Go call ends: it returns, or it panics at run time. -/
inductive Outcome (α : Type) where
  | returned (a : α)
  | panicked
deriving DecidableEq, Repr

/-- One execution of a method: what it returned, the world it left, the
collaborator calls it made in order, and what it logged. -/
structure Run (W α : Type) where
  result : α
  world : W
  trace : List Event
  log : List LogEntry

/-! ## The methods -/

/-- The method `LockName` (lines 52-54): `s.resourceInstance.LockName(s.worker.Name())`. -/
def LockName {W : Type} (c : Collaborators W) (s : resourceInstanceFetchSource) (w : W) :
    Run W (Except Err String) :=
  let res := c.lockName s.resourceInstance s.worker.name
  { result := res
    world := w
    trace := [Event.lockName s.resourceInstance s.worker.name res]
    log := [] }

/-- The method `Find` (lines 56-82).  The Go result `(VersionedSource, bool, error)`
is kept as a triple. -/
def Find {W : Type} (c : Collaborators W) (s : resourceInstanceFetchSource) (w : W) :
    Run W (Option VersionedSource × Bool × Option Err) :=
  match c.findOn s.logger s.resourceInstance s.worker w with
  | (.error err, w1) =>
    { result := (none, false, some err)
      world := w1
      trace := [Event.findOn s.logger s.resourceInstance s.worker (.error err)]
      log := [⟨some "find", .error, "failed-to-find-initialized-on", some err⟩] }
  | (.ok none, w1) =>
    { result := (none, false, none)
      world := w1
      trace := [Event.findOn s.logger s.resourceInstance s.worker (.ok none)]
      log := [] }
  | (.ok (some volume), w1) =>
    match c.resourceCacheMetadata s.dbResourceCacheFactory s.resourceInstance.resourceCache w1 with
    | (.error err, w2) =>
      { result := (none, false, some err)
        world := w2
        trace :=
          [Event.findOn s.logger s.resourceInstance s.worker (.ok (some volume)),
           Event.resourceCacheMetadata s.dbResourceCacheFactory
             s.resourceInstance.resourceCache (.error err)]
        log := [⟨some "find", .error, "failed-to-get-resource-cache-metadata", some err⟩] }
    | (.ok metadata, w2) =>
      { result :=
          (some (NewGetVersionedSource (some volume) s.resourceInstance.version
            (c.toATCMetadata metadata)), true, none)
        world := w2
        trace :=
          [Event.findOn s.logger s.resourceInstance s.worker (.ok (some volume)),
           Event.resourceCacheMetadata s.dbResourceCacheFactory
             s.resourceInstance.resourceCache (.ok metadata)]
        log := [⟨none, .debug, "found-initialized-versioned-source", none⟩] }

/-- The path `mountPath := ResourcesDir("get")` (line 98). -/
def mountPath {W : Type} (c : Collaborators W) : String :=
  c.resourcesDir "get"

/-- The value `containerSpec` (lines 100-112). -/
def containerSpec {W : Type} (c : Collaborators W) (s : resourceInstanceFetchSource) :
    ContainerSpec :=
  { imageSpec := { resourceType := s.resourceInstance.resourceType }
    tags := s.tags
    teamID := s.teamID
    env := s.metadata.env
    type := s.session.metadata.type
    outputs := [("resource", mountPath c)] }

/-- The value `workerSpec` (lines 114-119). -/
def workerSpec (s : resourceInstanceFetchSource) : WorkerSpec :=
  { resourceType := s.resourceInstance.resourceType
    tags := s.tags
    teamID := s.teamID
    resourceTypes := s.resourceTypes }

/-- The arguments `Create` passes to `NewResource` (lines 122-131). -/
def newResourceArgs {W : Type} (c : Collaborators W) (s : resourceInstanceFetchSource)
    (ctx : Context) : NewResourceArgs :=
  { ctx := ctx
    logger := s.logger
    owner := s.resourceInstance.containerOwner
    metadata := s.session.metadata
    containerSpec := containerSpec c s
    workerSpec := workerSpec s
    resourceTypes := s.resourceTypes
    imageFetchingDelegate := s.imageFetchingDelegate }

/-- The loop of lines 137-143: the volume of the first mount whose `MountPath`
is the wanted path; `none` is the nil `worker.Volume` the variable starts as. -/
def findMountVolume : List VolumeMount → String → Option Volume
  | [], _ => none
  | mount :: rest, path =>
    if mount.mountPath = path then some mount.volume else findMountVolume rest path

/-- The arguments `Create` passes to `resource.Get` (lines 145-155). -/
def getArgs (s : resourceInstanceFetchSource) (ctx : Context) (volume : Option Volume) :
    GetArgs :=
  { ctx := ctx
    volume := volume
    ioConfig := { stdout := s.imageFetchingDelegate.stdout, stderr := s.imageFetchingDelegate.stderr }
    source := s.resourceInstance.source
    params := s.resourceInstance.params
    version := s.resourceInstance.version }

/-- The method `Create` (lines 86-180).  The Go result `(VersionedSource, error)`
is kept as a pair.  At line 161 the method `SetPrivileged` is called on the
variable `volume`; when no mount matched, that variable is the nil interface
and the call panics. -/
def Create {W : Type} (c : Collaborators W) (s : resourceInstanceFetchSource) (ctx : Context)
    (w : W) : Run W (Outcome (Option VersionedSource × Option Err)) :=
  let f := Find c s w
  match f.result with
  | (_, _, some err) =>
    { result := .returned (none, some err), world := f.world, trace := f.trace, log := f.log }
  | (versionedSource, true, none) =>
    { result := .returned (versionedSource, none), world := f.world, trace := f.trace,
      log := f.log }
  | (_, false, none) =>
    let args := newResourceArgs c s ctx
    match c.newResource s.worker args f.world with
    | (.error err, w1) =>
      { result := .returned (none, some err)
        world := w1
        trace := f.trace ++ [Event.newResource s.worker args (.error err)]
        log := f.log ++ [⟨some "create", .error, "failed-to-construct-resource", some err⟩] }
    | (.ok resource, w1) =>
      let volume := findMountVolume resource.container.volumeMounts (mountPath c)
      let gargs := getArgs s ctx volume
      let t1 := f.trace ++ [Event.newResource s.worker args (.ok resource)]
      match c.get resource gargs w1 with
      | (.error err, w2) =>
        { result := .returned (none, some err)
          world := w2
          trace := t1 ++ [Event.get resource gargs (.error err)]
          log := f.log ++ [⟨some "create", .error, "failed-to-fetch-resource", some err⟩] }
      | (.ok versionedSource, w2) =>
        let t2 := t1 ++ [Event.get resource gargs (.ok versionedSource)]
        match volume with
        | none =>
          { result := .panicked, world := w2, trace := t2, log := f.log }
        | some vol =>
          match c.setPrivileged vol false w2 with
          | (.error err, w3) =>
            { result := .returned (none, some err)
              world := w3
              trace := t2 ++ [Event.setPrivileged vol false (.error err)]
              log := f.log ++
                [⟨some "create", .error, "failed-to-set-volume-unprivileged", some err⟩] }
          | (.ok (), w3) =>
            let t3 := t2 ++ [Event.setPrivileged vol false (.ok ())]
            match c.initializeResourceCache vol s.resourceInstance.resourceCache w3 with
            | (.error err, w4) =>
              { result := .returned (none, some err)
                world := w4
                trace := t3 ++
                  [Event.initializeResourceCache vol s.resourceInstance.resourceCache
                    (.error err)]
                log := f.log ++ [⟨some "create", .error, "failed-to-initialize-cache", some err⟩] }
            | (.ok (), w4) =>
              let t4 := t3 ++
                [Event.initializeResourceCache vol s.resourceInstance.resourceCache (.ok ())]
              match c.updateResourceCacheMetadata s.dbResourceCacheFactory
                  s.resourceInstance.resourceCache versionedSource.metadata w4 with
              | (.error err, w5) =>
                { result := .returned (none, some err)
                  world := w5
                  trace := t4 ++
                    [Event.updateResourceCacheMetadata s.dbResourceCacheFactory
                      s.resourceInstance.resourceCache versionedSource.metadata (.error err)]
                  log := f.log ++
                    [⟨none, .error, "failed-to-update-resource-cache-metadata", some err⟩] }
              | (.ok (), w5) =>
                { result := .returned (some versionedSource, none)
                  world := w5
                  trace := t4 ++
                    [Event.updateResourceCacheMetadata s.dbResourceCacheFactory
                      s.resourceInstance.resourceCache versionedSource.metadata (.ok ())]
                  log := f.log }

/-! ## Frame condition and collaborator instances -/

/-- The volume lookup, the provisioning of the container and the fetch executor
leave the world as it is: when the world stands for the worker's cache
associations and the cache metadata store, only `SetPrivileged`,
`InitializeResourceCache` and `UpdateResourceCacheMetadata` write to it. -/
def Collaborators.fetchKeepsWorld {W : Type} (c : Collaborators W) : Prop :=
  (∀ l ri wk w, (c.findOn l ri wk w).2 = w) ∧
  (∀ wk a w, (c.newResource wk a w).2 = w) ∧
  (∀ r a w, (c.get r a w).2 = w)

/-- A script of collaborator answers: what each collaborator returns when it
is called. -/
structure Script where
  lockName : Except Err String
  findOn : Except Err (Option Volume)
  resourceCacheMetadata : Except Err ResourceConfigMetadataFields
  newResource : Except Err Resource
  get : Except Err VersionedSource
  setPrivileged : Except Err Unit
  initializeResourceCache : Except Err Unit
  updateResourceCacheMetadata : Except Err Unit

/-- Stub collaborators that answer every call from a script, over the one-point
world.  `ResourcesDir` joins `/tmp/build` and the suffix. -/
def scripted (sc : Script) : Collaborators Unit :=
  { resourcesDir := fun suffix => "/tmp/build/" ++ suffix
    lockName := fun _ _ => sc.lockName
    toATCMetadata := fun fields => fields.map fun f => { name := f.name, value := f.value }
    findOn := fun _ _ _ w => (sc.findOn, w)
    resourceCacheMetadata := fun _ _ w => (sc.resourceCacheMetadata, w)
    newResource := fun _ _ w => (sc.newResource, w)
    get := fun _ _ w => (sc.get, w)
    setPrivileged := fun _ _ w => (sc.setPrivileged, w)
    initializeResourceCache := fun _ _ w => (sc.initializeResourceCache, w)
    updateResourceCacheMetadata := fun _ _ _ w => (sc.updateResourceCacheMetadata, w) }

/-- Modelled from the spec: the worker volume manager and the Cache Metadata
Store are not part of the file.  The state holds the cache associations
(which volume is initialized for which cache key), the volumes downgraded to
unprivileged, and the stored metadata per cache key. -/
structure Store where
  initialized : List (Volume × ResourceCache)
  unprivileged : List Volume
  metadata : List (ResourceCache × ResourceConfigMetadataFields)
deriving DecidableEq, Repr

/-- Modelled from the spec: Volume Lookup, which is not part of the file, scans
the cache associations for a volume on the given worker that is associated
with the cache key. -/
def findInitialized : List (Volume × ResourceCache) → ResourceCache → String → Option Volume
  | [], _, _ => none
  | (v, k) :: rest, cache, workerName =>
    if v.workerName = workerName ∧ k = cache then some v
    else findInitialized rest cache workerName

/-- Modelled from the spec: Volume Lookup, which is not part of the file, on the
store. -/
def Store.findOn (st : Store) (cache : ResourceCache) (workerName : String) : Option Volume :=
  findInitialized st.initialized cache workerName

/-- Modelled from the spec: the read of the Cache Metadata Store, which is not
part of the file, returns the metadata stored under the cache key (empty when
there is none). -/
def Store.read (st : Store) (cache : ResourceCache) : ResourceConfigMetadataFields :=
  match st.metadata.find? (fun p => p.1 = cache) with
  | some p => p.2
  | none => []

/-- Modelled from the spec: the upsert of the Cache Metadata Store, which is not
part of the file, replaces the metadata stored under the cache key. -/
def Store.upsert (st : Store) (cache : ResourceCache) (fields : List MetadataField) : Store :=
  { st with
    metadata :=
      (cache, fields.map fun f => { name := f.name, value := f.value }) ::
        st.metadata.filter (fun p => p.1 ≠ cache) }

/-- Modelled from the spec: the privilege flag of a volume handle, which is not
part of the file. -/
def Store.setPrivileged (st : Store) (v : Volume) (privileged : Bool) : Store :=
  if privileged then { st with unprivileged := st.unprivileged.filter (fun u => u ≠ v) }
  else { st with unprivileged := v :: st.unprivileged }

/-- Modelled from the spec: the cache association of a volume handle, which is
not part of the file, makes the volume findable by Volume Lookup for the
cache key. -/
def Store.associateCache (st : Store) (v : Volume) (cache : ResourceCache) : Store :=
  { st with initialized := (v, cache) :: st.initialized }

/-- Modelled from the spec: the collaborators over the explicit store.  The
container provider `provision` answers with the (handle, mount path) pairs of
the container it instantiates on the worker of the resource factory; the
fetch executor `fetch` answers with the Versioned Source or an error.  Both
leave the store as it is. -/
def storeCollaborators
    (provision : Worker → NewResourceArgs → Except Err (List (String × String)))
    (fetch : Resource → GetArgs → Except Err VersionedSource) : Collaborators Store :=
  { resourcesDir := fun suffix => "/tmp/build/" ++ suffix
    lockName := fun ri workerName => .ok (ri.resourceType ++ "/" ++ workerName)
    toATCMetadata := fun fields => fields.map fun f => { name := f.name, value := f.value }
    findOn := fun _ ri wk st => (.ok (st.findOn ri.resourceCache wk.name), st)
    resourceCacheMetadata := fun _ cache st => (.ok (st.read cache), st)
    newResource := fun wk a st =>
      match provision wk a with
      | .error e => (.error e, st)
      | .ok mounts =>
        (.ok { container := { volumeMounts := mounts.map fun m =>
            { volume := { handle := m.1, workerName := wk.name }, mountPath := m.2 } } }, st)
    get := fun r a st => (fetch r a, st)
    setPrivileged := fun v b st => (.ok (), st.setPrivileged v b)
    initializeResourceCache := fun v cache st => (.ok (), st.associateCache v cache)
    updateResourceCacheMetadata := fun _ cache fields st => (.ok (), st.upsert cache fields) }

/-- The scenario of the spec: a git resource at version `abc123`. -/
def gitInstance : ResourceInstance :=
  { resourceType := "git"
    source := [("uri", "https://x/y")]
    params := []
    version := [("ref", "abc123")]
    resourceCache := { id := 1 }
    containerOwner := { id := 1 } }

/-- The scenario of the spec: the fetch source of `gitInstance` on worker `w1`. -/
def gitFetchSource : resourceInstanceFetchSource :=
  NewResourceInstanceFetchSource { component := "fetcher" } gitInstance
    { name := "w1", description := "linux" }
    [] [] 1 { metadata := { type := "get", stepName := "some-step" } } { env := [] }
    { stdout := 1, stderr := 2 } { id := 0 }

/-- The scenario of the spec: what the executor returns for `gitInstance`. -/
def gitVersionedSource (volume : Option Volume) : VersionedSource :=
  { volume := volume
    version := [("ref", "abc123")]
    metadata := [{ name := "commit", value := "abc123" }] }

/-- The empty store: no cache association, no metadata. -/
def emptyStore : Store :=
  { initialized := [], unprivileged := [], metadata := [] }

/-- A container provider whose container has the one output mount at
`/tmp/build/get`. -/
def provisionOutput : Worker → NewResourceArgs → Except Err (List (String × String)) :=
  fun _ _ => .ok [("vol-1", "/tmp/build/get")]

/-- A fetch executor that returns the scenario result on the volume it is given. -/
def fetchGit : Resource → GetArgs → Except Err VersionedSource :=
  fun _ a => .ok (gitVersionedSource a.volume)

/-- The collaborators of the git scenario over the explicit store. -/
def gitCollaborators : Collaborators Store :=
  storeCollaborators provisionOutput fetchGit

/-- The only volume of the git scenario. -/
def gitVolume : Volume :=
  { handle := "vol-1", workerName := "w1" }

/-- The resource the container provider returns in the git scenario. -/
def gitResource : Resource :=
  { container := { volumeMounts := [{ volume := gitVolume, mountPath := "/tmp/build/get" }] } }

/-- The store after the git scenario was fetched once from the empty store. -/
def fetchedStore : Store :=
  (Create gitCollaborators gitFetchSource { id := 0 } emptyStore).world

/-- A container provider whose container has no mount at `/tmp/build/get`. -/
def provisionNoOutput : Worker → NewResourceArgs → Except Err (List (String × String)) :=
  fun _ _ => .ok [("vol-1", "/tmp/build/put")]

/-- A fetch executor that is cancelled. -/
def fetchCancelled : Resource → GetArgs → Except Err VersionedSource :=
  fun _ _ => .error "context canceled"

/-- A git resource whose requested version is the symbolic ref `latest`. -/
def latestInstance : ResourceInstance :=
  { gitInstance with version := [("ref", "latest")] }

/-- The fetch source of `latestInstance` on worker `w1`. -/
def latestFetchSource : resourceInstanceFetchSource :=
  { gitFetchSource with resourceInstance := latestInstance }

/-- A script in which the volume lookup fails. -/
def lookupFailsScript : Script :=
  { lockName := .ok "lock"
    findOn := .error "lookup failed"
    resourceCacheMetadata := .ok []
    newResource := .ok gitResource
    get := .ok (gitVersionedSource (some gitVolume))
    setPrivileged := .ok ()
    initializeResourceCache := .ok ()
    updateResourceCacheMetadata := .ok () }

/-- A script in which the volume lookup finds nothing and every later call
succeeds. -/
def missScript : Script :=
  { lookupFailsScript with findOn := .ok none }

/-- A script in which the volume is found and the metadata read fails. -/
def readFailsScript : Script :=
  { lookupFailsScript with
    findOn := .ok (some gitVolume)
    resourceCacheMetadata := .error "store down" }

/-- A script in which the volume is found and the metadata is read. -/
def hitScript : Script :=
  { lookupFailsScript with
    findOn := .ok (some gitVolume)
    resourceCacheMetadata := .ok [{ name := "commit", value := "abc123" }] }

/-- A script in which everything succeeds but the metadata upsert. -/
def upsertFailsScript : Script :=
  { missScript with updateResourceCacheMetadata := .error "store down" }

/-- A script in which the privilege downgrade fails. -/
def downgradeFailsScript : Script :=
  { missScript with setPrivileged := .error "downgrade failed" }

/-- A script in which the lock name cannot be derived. -/
def lockFailsScript : Script :=
  { missScript with lockName := .error "malformed" }

/-! ## Theorems -/

/-- Every call `Find` makes is a volume lookup or a read of the metadata store. -/
theorem Find_trace_kind {W : Type} (c : Collaborators W) (s : resourceInstanceFetchSource) (w : W)
    (ev : Event) (hev : ev ∈ (Find c s w).trace) :
    ev.kind = Kind.findOn ∨ ev.kind = Kind.resourceCacheMetadata := by
  unfold Find at hev
  split at hev
  · simp at hev; subst hev; simp [Event.kind]
  · simp at hev; subst hev; simp [Event.kind]
  · split at hev <;> simp at hev <;> rcases hev with rfl | rfl <;> simp [Event.kind]

/-- When `Find` reports a hit, `Create` returns what `Find` found and does
nothing else. -/
theorem Create_of_hit {W : Type} (c : Collaborators W) (s : resourceInstanceFetchSource)
    (ctx : Context) (w : W) (vs : Option VersionedSource)
    (h : (Find c s w).result = (vs, true, none)) :
    (Create c s ctx w).result = .returned (vs, none) ∧
    (Create c s ctx w).trace = (Find c s w).trace ∧
    (Create c s ctx w).world = (Find c s w).world := by
  simp [Create, h]

/-- The ten ways an execution of `Create` can go, each with its trace and its
result. -/
theorem Create_cases {W : Type} (c : Collaborators W) (s : resourceInstanceFetchSource)
    (ctx : Context) (w : W) :
    (∃ e, (Create c s ctx w).trace =
        [Event.findOn s.logger s.resourceInstance s.worker (.error e)] ∧
      (Create c s ctx w).result = .returned (none, some e)) ∨
    (∃ v e, (Create c s ctx w).trace =
        [Event.findOn s.logger s.resourceInstance s.worker (.ok (some v)),
         Event.resourceCacheMetadata s.dbResourceCacheFactory s.resourceInstance.resourceCache
           (.error e)] ∧
      (Create c s ctx w).result = .returned (none, some e)) ∨
    (∃ v md, (Create c s ctx w).trace =
        [Event.findOn s.logger s.resourceInstance s.worker (.ok (some v)),
         Event.resourceCacheMetadata s.dbResourceCacheFactory s.resourceInstance.resourceCache
           (.ok md)] ∧
      (Create c s ctx w).result = .returned (some (NewGetVersionedSource (some v)
        s.resourceInstance.version (c.toATCMetadata md)), none)) ∨
    (∃ e, (Create c s ctx w).trace =
        [Event.findOn s.logger s.resourceInstance s.worker (.ok none),
         Event.newResource s.worker (newResourceArgs c s ctx) (.error e)] ∧
      (Create c s ctx w).result = .returned (none, some e)) ∨
    (∃ r e, (Create c s ctx w).trace =
        [Event.findOn s.logger s.resourceInstance s.worker (.ok none),
         Event.newResource s.worker (newResourceArgs c s ctx) (.ok r),
         Event.get r (getArgs s ctx (findMountVolume r.container.volumeMounts (mountPath c)))
           (.error e)] ∧
      (Create c s ctx w).result = .returned (none, some e) ∧
      (c.findOn s.logger s.resourceInstance s.worker w).1 = .ok none ∧
      (Create c s ctx w).world =
        (c.get r (getArgs s ctx (findMountVolume r.container.volumeMounts (mountPath c)))
          (c.newResource s.worker (newResourceArgs c s ctx)
            (c.findOn s.logger s.resourceInstance s.worker w).2).2).2) ∨
    (∃ r vs, findMountVolume r.container.volumeMounts (mountPath c) = none ∧
      (Create c s ctx w).trace =
        [Event.findOn s.logger s.resourceInstance s.worker (.ok none),
         Event.newResource s.worker (newResourceArgs c s ctx) (.ok r),
         Event.get r (getArgs s ctx none) (.ok vs)] ∧
      (Create c s ctx w).result = .panicked) ∨
    (∃ r vs v e, findMountVolume r.container.volumeMounts (mountPath c) = some v ∧
      (Create c s ctx w).trace =
        [Event.findOn s.logger s.resourceInstance s.worker (.ok none),
         Event.newResource s.worker (newResourceArgs c s ctx) (.ok r),
         Event.get r (getArgs s ctx (some v)) (.ok vs),
         Event.setPrivileged v false (.error e)] ∧
      (Create c s ctx w).result = .returned (none, some e)) ∨
    (∃ r vs v e, findMountVolume r.container.volumeMounts (mountPath c) = some v ∧
      (Create c s ctx w).trace =
        [Event.findOn s.logger s.resourceInstance s.worker (.ok none),
         Event.newResource s.worker (newResourceArgs c s ctx) (.ok r),
         Event.get r (getArgs s ctx (some v)) (.ok vs),
         Event.setPrivileged v false (.ok ()),
         Event.initializeResourceCache v s.resourceInstance.resourceCache (.error e)] ∧
      (Create c s ctx w).result = .returned (none, some e)) ∨
    (∃ r vs v e, findMountVolume r.container.volumeMounts (mountPath c) = some v ∧
      (Create c s ctx w).trace =
        [Event.findOn s.logger s.resourceInstance s.worker (.ok none),
         Event.newResource s.worker (newResourceArgs c s ctx) (.ok r),
         Event.get r (getArgs s ctx (some v)) (.ok vs),
         Event.setPrivileged v false (.ok ()),
         Event.initializeResourceCache v s.resourceInstance.resourceCache (.ok ()),
         Event.updateResourceCacheMetadata s.dbResourceCacheFactory
           s.resourceInstance.resourceCache vs.metadata (.error e)] ∧
      (Create c s ctx w).result = .returned (none, some e)) ∨
    (∃ r vs v, findMountVolume r.container.volumeMounts (mountPath c) = some v ∧
      (Create c s ctx w).trace =
        [Event.findOn s.logger s.resourceInstance s.worker (.ok none),
         Event.newResource s.worker (newResourceArgs c s ctx) (.ok r),
         Event.get r (getArgs s ctx (some v)) (.ok vs),
         Event.setPrivileged v false (.ok ()),
         Event.initializeResourceCache v s.resourceInstance.resourceCache (.ok ()),
         Event.updateResourceCacheMetadata s.dbResourceCacheFactory
           s.resourceInstance.resourceCache vs.metadata (.ok ())] ∧
      (Create c s ctx w).result = .returned (some vs, none)) := by
  rcases hF : c.findOn s.logger s.resourceInstance s.worker w with ⟨_ | _ | v, w1⟩
  · simp [Create, Find, hF]
  · rcases hN : c.newResource s.worker (newResourceArgs c s ctx) w1 with ⟨_ | r, w2⟩
    · simp [Create, Find, hF, hN]
    · rcases hG : c.get r (getArgs s ctx (findMountVolume r.container.volumeMounts (mountPath c)))
        w2 with ⟨eG | vs, w3⟩
      · simp [Create, Find, hF, hN, hG]
        refine ⟨r, eG, ?_⟩
        simp [hG]
      · rcases hV : findMountVolume r.container.volumeMounts (mountPath c) with _ | vol
        · rw [hV] at hG
          simp [Create, Find, hF, hN, hG, hV]
        · rw [hV] at hG
          rcases hS : c.setPrivileged vol false w3 with ⟨_ | _, w4⟩
          · simp [Create, Find, hF, hN, hG, hV, hS]
            exact ⟨r, vs, vol, hV, by simp⟩
          · rcases hI : c.initializeResourceCache vol s.resourceInstance.resourceCache w4
              with ⟨_ | _, w5⟩
            · simp [Create, Find, hF, hN, hG, hV, hS, hI]
              exact ⟨r, vs, vol, hV, by simp⟩
            · rcases hU : c.updateResourceCacheMetadata s.dbResourceCacheFactory
                s.resourceInstance.resourceCache vs.metadata w5 with ⟨_ | _, w6⟩
              · simp [Create, Find, hF, hN, hG, hV, hS, hI, hU]
                exact ⟨r, vs, vol, hV, by simp⟩
              · simp [Create, Find, hF, hN, hG, hV, hS, hI, hU]
                exact ⟨r, vs, vol, hV, by simp⟩
  · rcases hM : c.resourceCacheMetadata s.dbResourceCacheFactory
      s.resourceInstance.resourceCache w1 with ⟨_ | md, w2⟩
    · simp [Create, Find, hF, hM]
    · simp [Create, Find, hF, hM]
      exact ⟨v, md, ⟨rfl, rfl⟩, rfl⟩

/-- The volume of a mount found in a container provisioned on a worker lives on
that worker. -/
theorem findMountVolume_workerName (mounts : List (String × String)) (name path : String)
    (v : Volume)
    (h : findMountVolume (mounts.map fun m =>
      { volume := { handle := m.1, workerName := name }, mountPath := m.2 }) path = some v) :
    v.workerName = name := by
  induction mounts with
  | nil => simp [findMountVolume] at h
  | cons m rest ih =>
    simp only [List.map_cons, findMountVolume] at h
    split at h
    · simp at h; rw [← h]
    · exact ih h

/-- Reading back stored metadata fields gives the fields that were stored. -/
theorem toATC_stored (fields : List MetadataField) :
    (fields.map fun f => ({ name := f.name, value := f.value } : ResourceConfigMetadataField)).map
      (fun f => ({ name := f.name, value := f.value } : MetadataField)) = fields := by
  induction fields with
  | nil => rfl
  | cons f rest ih => simp [ih]

/-- C1: in every execution of `Create`, a call of `InitializeResourceCache` on a
volume comes right after `resource.Get` on that volume returned without error
and `SetPrivileged(false)` on that volume returned without error, in that
order. -/
theorem Create_initialize_after_downgrade {W : Type} (c : Collaborators W)
    (s : resourceInstanceFetchSource) (ctx : Context) (w : W) (pre post : List Event)
    (v : Volume) (cache : ResourceCache) (res : Except Err Unit)
    (h : (Create c s ctx w).trace = pre ++ Event.initializeResourceCache v cache res :: post) :
    ∃ pre0 r vs,
      pre = pre0 ++ [Event.get r (getArgs s ctx (some v)) (.ok vs),
        Event.setPrivileged v false (.ok ())] := by
  rcases Create_cases c s ctx w with
    ⟨e1, ht, hr⟩ | ⟨v1, e1, ht, hr⟩ | ⟨v1, md, ht, hr⟩ | ⟨e1, ht, hr⟩ | ⟨r, e1, ht, hr⟩ |
    ⟨r, vs, hv, ht, hr⟩ | ⟨r, vs, v1, e1, hv, ht, hr⟩ | ⟨r, vs, v1, e1, hv, ht, hr⟩ |
    ⟨r, vs, v1, e1, hv, ht, hr⟩ | ⟨r, vs, v1, hv, ht, hr⟩
  all_goals
    rw [ht] at h
    simp [List.cons_eq_append_iff] at h
  all_goals
    casesm* ∃ _, _, _ ∧ _
    subst_vars
    exact ⟨[Event.findOn s.logger s.resourceInstance s.worker (.ok none),
      Event.newResource s.worker (newResourceArgs c s ctx) (.ok r)], r, vs, rfl⟩

/-- Witness of C1 on the git scenario over the empty store. -/
theorem Create_initialize_after_downgrade_witness :
    (Create gitCollaborators gitFetchSource ⟨0⟩ emptyStore).trace =
      (Create gitCollaborators gitFetchSource ⟨0⟩ emptyStore).trace.take 4 ++
      Event.initializeResourceCache gitVolume ⟨1⟩ (.ok ()) ::
      (Create gitCollaborators gitFetchSource ⟨0⟩ emptyStore).trace.drop 5 ∧
    ∃ pre0 r vs,
      (Create gitCollaborators gitFetchSource ⟨0⟩ emptyStore).trace.take 4 =
      pre0 ++ [Event.get r (getArgs gitFetchSource ⟨0⟩ (some gitVolume)) (.ok vs),
        Event.setPrivileged gitVolume false (.ok ())] :=
  ⟨rfl, Create_initialize_after_downgrade gitCollaborators gitFetchSource ⟨0⟩ emptyStore _ _
    gitVolume ⟨1⟩ (.ok ()) rfl⟩

/-- C2: when `Find` reports a hit `(vs, true, nil)`, `Create` returns `(vs, nil)`,
makes exactly the calls of `Find`, and calls none of `NewResource`,
`resource.Get`, `SetPrivileged`, `InitializeResourceCache` and
`UpdateResourceCacheMetadata`. -/
theorem Create_hit_short_circuit {W : Type} (c : Collaborators W)
    (s : resourceInstanceFetchSource) (ctx : Context) (w : W) (vs : Option VersionedSource)
    (h : (Find c s w).result = (vs, true, none)) :
    (Create c s ctx w).result = .returned (vs, none) ∧
    (Create c s ctx w).trace = (Find c s w).trace ∧
    (Create c s ctx w).world = (Find c s w).world ∧
    ∀ ev ∈ (Create c s ctx w).trace, ev.kind ≠ Kind.newResource ∧ ev.kind ≠ Kind.get ∧
      ev.kind ≠ Kind.setPrivileged ∧ ev.kind ≠ Kind.initializeResourceCache ∧
      ev.kind ≠ Kind.updateResourceCacheMetadata := by
  have hc := Create_of_hit c s ctx w vs h
  refine ⟨hc.1, hc.2.1, hc.2.2, ?_⟩
  rw [hc.2.1]
  intro ev hev
  rcases Find_trace_kind c s w ev hev with h1 | h1 <;> simp [h1]

/-- Witness of C2: the git scenario once its cache is in the store. -/
theorem Create_hit_short_circuit_witness :
    (Find gitCollaborators gitFetchSource fetchedStore).result =
      (some (gitVersionedSource (some gitVolume)), true, none) ∧
    (Create gitCollaborators gitFetchSource ⟨1⟩ fetchedStore).result =
      .returned (some (gitVersionedSource (some gitVolume)), none) ∧
    (Create gitCollaborators gitFetchSource ⟨1⟩ fetchedStore).trace =
      (Find gitCollaborators gitFetchSource fetchedStore).trace ∧
    (Create gitCollaborators gitFetchSource ⟨1⟩ fetchedStore).world =
      (Find gitCollaborators gitFetchSource fetchedStore).world ∧
    ∀ ev ∈ (Create gitCollaborators gitFetchSource ⟨1⟩ fetchedStore).trace,
      ev.kind ≠ Kind.newResource ∧ ev.kind ≠ Kind.get ∧
      ev.kind ≠ Kind.setPrivileged ∧ ev.kind ≠ Kind.initializeResourceCache ∧
      ev.kind ≠ Kind.updateResourceCacheMetadata :=
  ⟨rfl, Create_hit_short_circuit gitCollaborators gitFetchSource ⟨1⟩ fetchedStore
    (some (gitVersionedSource (some gitVolume))) rfl⟩

/-- The explicit store is not written by the lookup, the container provider
or the fetch executor. -/
theorem storeCollaborators_fetchKeepsWorld
    (provision : Worker → NewResourceArgs → Except Err (List (String × String)))
    (fetch : Resource → GetArgs → Except Err VersionedSource) :
    (storeCollaborators provision fetch).fetchKeepsWorld := by
  refine ⟨?_, ?_, ?_⟩
  · intro l ri wk w; rfl
  · intro wk a w
    simp only [storeCollaborators]
    split <;> rfl
  · intro r a w; rfl

/-- C3: when `Find` misses and `resource.Get` returns an error `e`, `Create`
returns `(nil, e)` and calls none of `SetPrivileged`, `InitializeResourceCache`
and `UpdateResourceCacheMetadata`; when the lookup, the container provider
and the executor do not write to the world (the volume set and the metadata
store), the world is unchanged and `Find` on it still reports a miss. -/
theorem Create_fetch_error_leaves_no_cache {W : Type} (c : Collaborators W)
    (s : resourceInstanceFetchSource) (ctx : Context) (w : W) (r : Resource) (ga : GetArgs)
    (e : Err)
    (hmiss : (Find c s w).result = (none, false, none))
    (hget : Event.get r ga (.error e) ∈ (Create c s ctx w).trace) :
    (Create c s ctx w).result = .returned (none, some e) ∧
    (∀ ev ∈ (Create c s ctx w).trace, ev.kind ≠ Kind.setPrivileged ∧
      ev.kind ≠ Kind.initializeResourceCache ∧ ev.kind ≠ Kind.updateResourceCacheMetadata) ∧
    (c.fetchKeepsWorld →
      (Create c s ctx w).world = w ∧
      (Find c s (Create c s ctx w).world).result = (none, false, none)) := by
  rcases Create_cases c s ctx w with
    ⟨e1, ht, hr⟩ | ⟨v1, e1, ht, hr⟩ | ⟨v1, md, ht, hr⟩ | ⟨e1, ht, hr⟩ |
    ⟨r1, e1, ht, hr, hf, hw⟩ |
    ⟨r1, vs, hv, ht, hr⟩ | ⟨r1, vs, v1, e1, hv, ht, hr⟩ | ⟨r1, vs, v1, e1, hv, ht, hr⟩ |
    ⟨r1, vs, v1, e1, hv, ht, hr⟩ | ⟨r1, vs, v1, hv, ht, hr⟩
  all_goals
    rw [ht] at hget
    simp at hget
  obtain ⟨-, -, rfl⟩ := hget
  refine ⟨hr, ?_, ?_⟩
  · rw [ht]
    intro ev hev
    simp at hev
    rcases hev with rfl | rfl | rfl <;> simp [Event.kind]
  · intro hk
    have hw2 : (Create c s ctx w).world = w := by
      rw [hw, hk.2.2, hk.2.1, hk.1]
    rw [hw2]
    exact ⟨rfl, hmiss⟩

/-- Witness of C3: the git scenario with a cancelled executor, over the empty
store. -/
theorem Create_fetch_error_leaves_no_cache_witness :
    (Find (storeCollaborators provisionOutput fetchCancelled) gitFetchSource emptyStore).result =
      (none, false, none) ∧
    Event.get gitResource (getArgs gitFetchSource ⟨0⟩ (some gitVolume))
        (.error "context canceled") ∈
      (Create (storeCollaborators provisionOutput fetchCancelled) gitFetchSource ⟨0⟩
        emptyStore).trace ∧
    (Create (storeCollaborators provisionOutput fetchCancelled) gitFetchSource ⟨0⟩
      emptyStore).result = .returned (none, some "context canceled") ∧
    (Create (storeCollaborators provisionOutput fetchCancelled) gitFetchSource ⟨0⟩
      emptyStore).world = emptyStore ∧
    (Find (storeCollaborators provisionOutput fetchCancelled) gitFetchSource
      (Create (storeCollaborators provisionOutput fetchCancelled) gitFetchSource ⟨0⟩
        emptyStore).world).result = (none, false, none) :=
  have hmem : Event.get gitResource (getArgs gitFetchSource ⟨0⟩ (some gitVolume))
        (.error "context canceled") ∈
      (Create (storeCollaborators provisionOutput fetchCancelled) gitFetchSource ⟨0⟩
        emptyStore).trace :=
    List.Mem.tail _ (List.Mem.tail _ (List.Mem.head _))
  have h := Create_fetch_error_leaves_no_cache
    (storeCollaborators provisionOutput fetchCancelled) gitFetchSource ⟨0⟩ emptyStore
    gitResource (getArgs gitFetchSource ⟨0⟩ (some gitVolume)) "context canceled" rfl hmem
  ⟨rfl, hmem, h.1,
    h.2.2 (storeCollaborators_fetchKeepsWorld provisionOutput fetchCancelled)⟩

/-- When `Find` misses, the volume lookup reported not found, and that lookup
is the only call `Find` made. -/
theorem Find_miss {W : Type} (c : Collaborators W) (s : resourceInstanceFetchSource) (w : W)
    (h : (Find c s w).result = (none, false, none)) :
    c.findOn s.logger s.resourceInstance s.worker w = (.ok none, (Find c s w).world) ∧
    (Find c s w).trace = [Event.findOn s.logger s.resourceInstance s.worker (.ok none)] ∧
    (Find c s w).log = [] := by
  rcases hF : c.findOn s.logger s.resourceInstance s.worker w with ⟨_ | _ | v, w1⟩
  · simp [Find, hF] at h
  · simp [Find, hF]
  · rcases hM : c.resourceCacheMetadata s.dbResourceCacheFactory
      s.resourceInstance.resourceCache w1 with ⟨_ | md, w2⟩
    · simp [Find, hF, hM] at h
    · simp [Find, hF, hM] at h

/-- C4: when `Find` misses and every collaborator succeeds (the container is
provisioned, the output mount at `ResourcesDir("get")` has volume `v`, `Get`
returns `vs`, the downgrade, the association and the upsert succeed), the
calls of `Create` after provisioning are exactly `Get` on the volume `v` with
the source, the params and the version of the resource instance (under the
context of the caller and the output sinks of the delegate),
`SetPrivileged(false)`, `InitializeResourceCache(cache)`,
`UpdateResourceCacheMetadata(cache, vs.Metadata())`, in this order, each once,
and `Create` returns `(vs, nil)`. -/
theorem Create_success_sequence {W : Type} (c : Collaborators W)
    (s : resourceInstanceFetchSource) (ctx : Context) (w w2 w3 w4 w5 w6 : W) (r : Resource)
    (v : Volume) (vs : VersionedSource)
    (hmiss : (Find c s w).result = (none, false, none))
    (hN : c.newResource s.worker (newResourceArgs c s ctx) (Find c s w).world = (.ok r, w2))
    (hV : findMountVolume r.container.volumeMounts (c.resourcesDir "get") = some v)
    (hG : c.get r
      (GetArgs.mk ctx (some v)
        (IOConfig.mk s.imageFetchingDelegate.stdout s.imageFetchingDelegate.stderr)
        s.resourceInstance.source s.resourceInstance.params s.resourceInstance.version)
      w2 = (.ok vs, w3))
    (hS : c.setPrivileged v false w3 = (.ok (), w4))
    (hI : c.initializeResourceCache v s.resourceInstance.resourceCache w4 = (.ok (), w5))
    (hU : c.updateResourceCacheMetadata s.dbResourceCacheFactory
      s.resourceInstance.resourceCache vs.metadata w5 = (.ok (), w6)) :
    (Create c s ctx w).result = .returned (some vs, none) ∧
    (Create c s ctx w).trace =
      [Event.findOn s.logger s.resourceInstance s.worker (.ok none),
       Event.newResource s.worker (newResourceArgs c s ctx) (.ok r)] ++
      [Event.get r
         (GetArgs.mk ctx (some v)
           (IOConfig.mk s.imageFetchingDelegate.stdout s.imageFetchingDelegate.stderr)
           s.resourceInstance.source s.resourceInstance.params s.resourceInstance.version)
         (.ok vs),
       Event.setPrivileged v false (.ok ()),
       Event.initializeResourceCache v s.resourceInstance.resourceCache (.ok ()),
       Event.updateResourceCacheMetadata s.dbResourceCacheFactory
         s.resourceInstance.resourceCache vs.metadata (.ok ())] ∧
    (Create c s ctx w).world = w6 := by
  obtain ⟨-, hT, -⟩ := Find_miss c s w hmiss
  have hV2 : findMountVolume r.container.volumeMounts (mountPath c) = some v := by
    simpa only [mountPath] using hV
  have hG2 : c.get r (getArgs s ctx (some v)) w2 = (.ok vs, w3) := by
    simpa only [getArgs] using hG
  have hA : getArgs s ctx (some v) =
      GetArgs.mk ctx (some v)
        (IOConfig.mk s.imageFetchingDelegate.stdout s.imageFetchingDelegate.stderr)
        s.resourceInstance.source s.resourceInstance.params s.resourceInstance.version := by
    simp only [getArgs]
  rw [← hA]
  simp [Create, hmiss, hN, hV2, hG2, hS, hI, hU, hT]

/-- Witness of C4: the first fetch of the git scenario over the empty store. -/
theorem Create_success_sequence_witness :
    (Find gitCollaborators gitFetchSource emptyStore).result = (none, false, none) ∧
    (Create gitCollaborators gitFetchSource ⟨0⟩ emptyStore).result =
      .returned (some (gitVersionedSource (some gitVolume)), none) ∧
    (Create gitCollaborators gitFetchSource ⟨0⟩ emptyStore).trace =
      [Event.findOn gitFetchSource.logger gitInstance gitFetchSource.worker (.ok none),
       Event.newResource gitFetchSource.worker
         (newResourceArgs gitCollaborators gitFetchSource ⟨0⟩) (.ok gitResource)] ++
      [Event.get gitResource
         (GetArgs.mk ⟨0⟩ (some gitVolume) (IOConfig.mk 1 2) [("uri", "https://x/y")] []
           [("ref", "abc123")])
         (.ok (gitVersionedSource (some gitVolume))),
       Event.setPrivileged gitVolume false (.ok ()),
       Event.initializeResourceCache gitVolume ⟨1⟩ (.ok ()),
       Event.updateResourceCacheMetadata ⟨0⟩ ⟨1⟩ [⟨"commit", "abc123"⟩] (.ok ())] ∧
    (Create gitCollaborators gitFetchSource ⟨0⟩ emptyStore).world = fetchedStore :=
  ⟨rfl, Create_success_sequence gitCollaborators gitFetchSource ⟨0⟩ emptyStore emptyStore
    emptyStore (emptyStore.setPrivileged gitVolume false)
    ((emptyStore.setPrivileged gitVolume false).associateCache gitVolume gitInstance.resourceCache)
    fetchedStore gitResource gitVolume (gitVersionedSource (some gitVolume))
    rfl rfl rfl rfl rfl rfl rfl⟩

/-- C5: the result of `Find`.  A lookup error `e` gives `(nil, false, e)`; not
found gives `(nil, false, nil)` and the metadata store is not read; a found
volume with a failing metadata read gives `(nil, false, e)`; otherwise the
result is found with the Versioned Source built from the found volume, the
version of the resource instance and the loaded metadata.  In every case
`Find` calls none of `Get`, `SetPrivileged`, `InitializeResourceCache` and
`UpdateResourceCacheMetadata`. -/
theorem Find_result_cases {W : Type} (c : Collaborators W) (s : resourceInstanceFetchSource)
    (w : W) :
    (∀ e w1, c.findOn s.logger s.resourceInstance s.worker w = (.error e, w1) →
      (Find c s w).result = (none, false, some e) ∧
      (Find c s w).trace = [Event.findOn s.logger s.resourceInstance s.worker (.error e)]) ∧
    (∀ w1, c.findOn s.logger s.resourceInstance s.worker w = (.ok none, w1) →
      (Find c s w).result = (none, false, none) ∧
      (Find c s w).trace = [Event.findOn s.logger s.resourceInstance s.worker (.ok none)]) ∧
    (∀ v w1 e w2, c.findOn s.logger s.resourceInstance s.worker w = (.ok (some v), w1) →
      c.resourceCacheMetadata s.dbResourceCacheFactory s.resourceInstance.resourceCache w1
        = (.error e, w2) →
      (Find c s w).result = (none, false, some e)) ∧
    (∀ v w1 md w2, c.findOn s.logger s.resourceInstance s.worker w = (.ok (some v), w1) →
      c.resourceCacheMetadata s.dbResourceCacheFactory s.resourceInstance.resourceCache w1
        = (.ok md, w2) →
      (Find c s w).result =
        (some (NewGetVersionedSource (some v) s.resourceInstance.version (c.toATCMetadata md)),
          true, none)) ∧
    (∀ ev ∈ (Find c s w).trace, ev.kind ≠ Kind.get ∧ ev.kind ≠ Kind.setPrivileged ∧
      ev.kind ≠ Kind.initializeResourceCache ∧ ev.kind ≠ Kind.updateResourceCacheMetadata) := by
  refine ⟨?_, ?_, ?_, ?_, ?_⟩
  · intro e w1 h; simp [Find, h]
  · intro w1 h; simp [Find, h]
  · intro v w1 e w2 h1 h2; simp [Find, h1, h2]
  · intro v w1 md w2 h1 h2; simp [Find, h1, h2]
  · intro ev hev
    rcases Find_trace_kind c s w ev hev with h1 | h1 <;> simp [h1]

/-- Witness of C5: one scripted execution for each of the four cases. -/
theorem Find_result_cases_witness :
    ((Find (scripted lookupFailsScript) gitFetchSource ()).result =
        (none, false, some "lookup failed") ∧
      (Find (scripted lookupFailsScript) gitFetchSource ()).trace =
        [Event.findOn gitFetchSource.logger gitInstance gitFetchSource.worker
          (.error "lookup failed")]) ∧
    ((Find (scripted missScript) gitFetchSource ()).result = (none, false, none) ∧
      (Find (scripted missScript) gitFetchSource ()).trace =
        [Event.findOn gitFetchSource.logger gitInstance gitFetchSource.worker (.ok none)]) ∧
    (Find (scripted readFailsScript) gitFetchSource ()).result =
      (none, false, some "store down") ∧
    (Find (scripted hitScript) gitFetchSource ()).result =
      (some (NewGetVersionedSource (some gitVolume) [("ref", "abc123")]
        [{ name := "commit", value := "abc123" }]), true, none) :=
  ⟨(Find_result_cases (scripted lookupFailsScript) gitFetchSource ()).1 "lookup failed" () rfl,
   (Find_result_cases (scripted missScript) gitFetchSource ()).2.1 () rfl,
   (Find_result_cases (scripted readFailsScript) gitFetchSource ()).2.2.1 gitVolume ()
     "store down" () rfl rfl,
   (Find_result_cases (scripted hitScript) gitFetchSource ()).2.2.2.1 gitVolume ()
     [{ name := "commit", value := "abc123" }] () rfl rfl⟩

/-- C6, as the code behaves: when `Find` misses, `Get` succeeds with `vs`, the
downgrade and the association succeed and `UpdateResourceCacheMetadata`
returns an error `e`, `Create` returns `(nil, e)`, after the volume was
downgraded and associated. -/
theorem Create_upsert_error_returned {W : Type} (c : Collaborators W)
    (s : resourceInstanceFetchSource) (ctx : Context) (w w2 w3 w4 w5 w6 : W) (r : Resource)
    (v : Volume) (vs : VersionedSource) (e : Err)
    (hmiss : (Find c s w).result = (none, false, none))
    (hN : c.newResource s.worker (newResourceArgs c s ctx) (Find c s w).world = (.ok r, w2))
    (hV : findMountVolume r.container.volumeMounts (mountPath c) = some v)
    (hG : c.get r (getArgs s ctx (some v)) w2 = (.ok vs, w3))
    (hS : c.setPrivileged v false w3 = (.ok (), w4))
    (hI : c.initializeResourceCache v s.resourceInstance.resourceCache w4 = (.ok (), w5))
    (hU : c.updateResourceCacheMetadata s.dbResourceCacheFactory
      s.resourceInstance.resourceCache vs.metadata w5 = (.error e, w6)) :
    (Create c s ctx w).result = .returned (none, some e) ∧
    (Create c s ctx w).trace =
      [Event.findOn s.logger s.resourceInstance s.worker (.ok none),
       Event.newResource s.worker (newResourceArgs c s ctx) (.ok r),
       Event.get r (getArgs s ctx (some v)) (.ok vs),
       Event.setPrivileged v false (.ok ()),
       Event.initializeResourceCache v s.resourceInstance.resourceCache (.ok ()),
       Event.updateResourceCacheMetadata s.dbResourceCacheFactory
         s.resourceInstance.resourceCache vs.metadata (.error e)] ∧
    (Create c s ctx w).world = w6 := by
  obtain ⟨-, hT, -⟩ := Find_miss c s w hmiss
  simp [Create, hmiss, hN, hV, hG, hS, hI, hU, hT]

/-- Witness of the amended C6: the scripted execution whose upsert fails. -/
theorem Create_upsert_error_returned_witness :
    (Find (scripted upsertFailsScript) gitFetchSource ()).result = (none, false, none) ∧
    (Create (scripted upsertFailsScript) gitFetchSource ⟨0⟩ ()).result =
      .returned (none, some "store down") ∧
    (Create (scripted upsertFailsScript) gitFetchSource ⟨0⟩ ()).trace =
      [Event.findOn gitFetchSource.logger gitInstance gitFetchSource.worker (.ok none),
       Event.newResource gitFetchSource.worker
         (newResourceArgs (scripted upsertFailsScript) gitFetchSource ⟨0⟩) (.ok gitResource),
       Event.get gitResource (getArgs gitFetchSource ⟨0⟩ (some gitVolume))
         (.ok (gitVersionedSource (some gitVolume))),
       Event.setPrivileged gitVolume false (.ok ()),
       Event.initializeResourceCache gitVolume gitInstance.resourceCache (.ok ()),
       Event.updateResourceCacheMetadata gitFetchSource.dbResourceCacheFactory
         gitInstance.resourceCache (gitVersionedSource (some gitVolume)).metadata
         (.error "store down")] ∧
    (Create (scripted upsertFailsScript) gitFetchSource ⟨0⟩ ()).world = () :=
  ⟨rfl, Create_upsert_error_returned (scripted upsertFailsScript) gitFetchSource ⟨0⟩
    () () () () () () gitResource gitVolume (gitVersionedSource (some gitVolume)) "store down"
    rfl rfl rfl rfl rfl rfl rfl⟩

/-- C6 fails as stated: in the scripted execution where `Find` misses, `Get`
returns the Versioned Source, the downgrade and the association succeed and
the upsert fails, `Create` returns `(nil, err)` and not the Versioned
Source. -/
theorem Create_upsert_error_not_tolerated :
    (Find (scripted upsertFailsScript) gitFetchSource ()).result = (none, false, none) ∧
    (Create (scripted upsertFailsScript) gitFetchSource ⟨0⟩ ()).trace =
      [Event.findOn gitFetchSource.logger gitInstance gitFetchSource.worker (.ok none),
       Event.newResource gitFetchSource.worker
         (newResourceArgs (scripted upsertFailsScript) gitFetchSource ⟨0⟩) (.ok gitResource),
       Event.get gitResource (getArgs gitFetchSource ⟨0⟩ (some gitVolume))
         (.ok (gitVersionedSource (some gitVolume))),
       Event.setPrivileged gitVolume false (.ok ()),
       Event.initializeResourceCache gitVolume gitInstance.resourceCache (.ok ()),
       Event.updateResourceCacheMetadata gitFetchSource.dbResourceCacheFactory
         gitInstance.resourceCache (gitVersionedSource (some gitVolume)).metadata
         (.error "store down")] ∧
    (Create (scripted upsertFailsScript) gitFetchSource ⟨0⟩ ()).result =
      .returned (none, some "store down") ∧
    (Create (scripted upsertFailsScript) gitFetchSource ⟨0⟩ ()).result ≠
      .returned (some (gitVersionedSource (some gitVolume)), none) := by
  refine ⟨rfl, rfl, rfl, ?_⟩
  intro h
  have h2 : (Outcome.returned ((none : Option VersionedSource), some "store down") :
      Outcome (Option VersionedSource × Option Err)) =
      .returned (some (gitVersionedSource (some gitVolume)), none) := h
  simp at h2

/-- C7 on the code: when the container has no mount at `ResourcesDir("get")`,
`Create` does not fail before the fetch.  It calls `resource.Get` with a nil
volume, and when `Get` succeeds the call of `SetPrivileged` on the nil volume
panics. -/
theorem Create_missing_mount_calls_get :
    (Find (storeCollaborators provisionNoOutput fetchGit) gitFetchSource emptyStore).result =
      (none, false, none) ∧
    findMountVolume
      [{ volume := gitVolume, mountPath := "/tmp/build/put" }]
      (mountPath (storeCollaborators provisionNoOutput fetchGit)) = none ∧
    (Create (storeCollaborators provisionNoOutput fetchGit) gitFetchSource ⟨0⟩
      emptyStore).trace =
      [Event.findOn gitFetchSource.logger gitInstance gitFetchSource.worker (.ok none),
       Event.newResource gitFetchSource.worker
         (newResourceArgs (storeCollaborators provisionNoOutput fetchGit) gitFetchSource ⟨0⟩)
         (.ok { container :=
           { volumeMounts := [{ volume := gitVolume, mountPath := "/tmp/build/put" }] } }),
       Event.get
         { container :=
           { volumeMounts := [{ volume := gitVolume, mountPath := "/tmp/build/put" }] } }
         (getArgs gitFetchSource ⟨0⟩ none) (.ok (gitVersionedSource none))] ∧
    (Create (storeCollaborators provisionNoOutput fetchGit) gitFetchSource ⟨0⟩
      emptyStore).result = .panicked :=
  ⟨rfl, rfl, rfl, rfl⟩

/-- The container provider of the explicit store, unfolded. -/
theorem storeCollaborators_newResource
    (provision : Worker → NewResourceArgs → Except Err (List (String × String)))
    (fetch : Resource → GetArgs → Except Err VersionedSource) (wk : Worker)
    (a : NewResourceArgs) (st : Store) :
    (storeCollaborators provision fetch).newResource wk a st =
      match provision wk a with
      | .error e => (.error e, st)
      | .ok mounts =>
        (.ok { container := { volumeMounts := mounts.map fun m =>
            { volume := { handle := m.1, workerName := wk.name }, mountPath := m.2 } } }, st) :=
  rfl

/-- C8, as the code behaves, over the explicit store: after a first `Create`
that misses and returns the executor result `vs`, `Find` on the resulting
store hits, and a second `Create` calls no `resource.Get` and returns the
Versioned Source with the metadata of `vs` and the version of the resource
instance; that version is the version of `vs` when the executor returned the
version it was asked for. -/
theorem Create_second_hits
    (provision : Worker → NewResourceArgs → Except Err (List (String × String)))
    (fetch : Resource → GetArgs → Except Err VersionedSource)
    (s : resourceInstanceFetchSource) (ctx ctx2 : Context) (st : Store) (vs : VersionedSource)
    (hmiss : (Find (storeCollaborators provision fetch) s st).result = (none, false, none))
    (hfirst : (Create (storeCollaborators provision fetch) s ctx st).result =
      .returned (some vs, none)) :
    ∃ v vs2,
      (Find (storeCollaborators provision fetch) s
        (Create (storeCollaborators provision fetch) s ctx st).world).result =
        (some vs2, true, none) ∧
      (Create (storeCollaborators provision fetch) s ctx2
        (Create (storeCollaborators provision fetch) s ctx st).world).result =
        .returned (some vs2, none) ∧
      (∀ ev ∈ (Create (storeCollaborators provision fetch) s ctx2
        (Create (storeCollaborators provision fetch) s ctx st).world).trace,
        ev.kind ≠ Kind.get) ∧
      vs2.volume = some v ∧
      vs2.metadata = vs.metadata ∧
      vs2.version = s.resourceInstance.version ∧
      (vs.version = s.resourceInstance.version → vs2.version = vs.version) := by
  obtain ⟨hF, hT, -⟩ := Find_miss _ s st hmiss
  have hF2 : st.findOn s.resourceInstance.resourceCache s.worker.name = none ∧
      (Find (storeCollaborators provision fetch) s st).world = st := by
    simp only [storeCollaborators, Prod.mk.injEq, Except.ok.injEq] at hF
    exact ⟨hF.1, hF.2.symm⟩
  rcases hP : provision s.worker (newResourceArgs (storeCollaborators provision fetch) s ctx)
    with eP | mounts
  · have hN : (storeCollaborators provision fetch).newResource s.worker
        (newResourceArgs (storeCollaborators provision fetch) s ctx)
        (Find (storeCollaborators provision fetch) s st).world = (.error eP, st) := by
      rw [hF2.2, storeCollaborators_newResource, hP]
    simp [Create, hmiss, hN] at hfirst
  · have hN : (storeCollaborators provision fetch).newResource s.worker
        (newResourceArgs (storeCollaborators provision fetch) s ctx)
        (Find (storeCollaborators provision fetch) s st).world =
        (.ok { container := { volumeMounts := mounts.map fun m =>
          { volume := { handle := m.1, workerName := s.worker.name }, mountPath := m.2 } } },
          st) := by
      rw [hF2.2, storeCollaborators_newResource, hP]
    rcases hV : findMountVolume (mounts.map fun m =>
        ({ volume := { handle := m.1, workerName := s.worker.name }, mountPath := m.2 } :
          VolumeMount)) (mountPath (storeCollaborators provision fetch)) with _ | v
    · rcases hG : (storeCollaborators provision fetch).get
          { container := { volumeMounts := mounts.map fun m =>
            { volume := { handle := m.1, workerName := s.worker.name }, mountPath := m.2 } } }
          (getArgs s ctx none) st with ⟨eG | vs1, st3⟩
      · simp [Create, hmiss, hN, hV, hG] at hfirst
      · simp [Create, hmiss, hN, hV, hG] at hfirst
    · have hw := findMountVolume_workerName mounts s.worker.name _ v hV
      rcases hG : (storeCollaborators provision fetch).get
          { container := { volumeMounts := mounts.map fun m =>
            { volume := { handle := m.1, workerName := s.worker.name }, mountPath := m.2 } } }
          (getArgs s ctx (some v)) st with ⟨eG | vs1, st3⟩
      · simp [Create, hmiss, hN, hV, hG] at hfirst
      · have hst3 : st3 = st := by
          simp only [storeCollaborators, Prod.mk.injEq] at hG
          exact hG.2.symm
        subst hst3
        have hS : (storeCollaborators provision fetch).setPrivileged v false st3 =
            (.ok (), st3.setPrivileged v false) := rfl
        have hI : (storeCollaborators provision fetch).initializeResourceCache v
            s.resourceInstance.resourceCache (st3.setPrivileged v false) =
            (.ok (), (st3.setPrivileged v false).associateCache v
              s.resourceInstance.resourceCache) := rfl
        have hU : (storeCollaborators provision fetch).updateResourceCacheMetadata
            s.dbResourceCacheFactory s.resourceInstance.resourceCache vs1.metadata
            ((st3.setPrivileged v false).associateCache v s.resourceInstance.resourceCache) =
            (.ok (), ((st3.setPrivileged v false).associateCache v
              s.resourceInstance.resourceCache).upsert s.resourceInstance.resourceCache
                vs1.metadata) := rfl
        have hC : (Create (storeCollaborators provision fetch) s ctx st3).result =
            .returned (some vs1, none) ∧
            (Create (storeCollaborators provision fetch) s ctx st3).world =
              ((st3.setPrivileged v false).associateCache v
              s.resourceInstance.resourceCache).upsert s.resourceInstance.resourceCache
                vs1.metadata := by
          simp [Create, hmiss, hN, hV, hG, hS, hI, hU]
        rw [hC.1] at hfirst
        simp only [Outcome.returned.injEq, Prod.mk.injEq, Option.some.injEq, and_true] at hfirst
        subst hfirst
        have hFind2 : (Find (storeCollaborators provision fetch) s
            (Create (storeCollaborators provision fetch) s ctx st3).world).result =
            (some (NewGetVersionedSource (some v) s.resourceInstance.version vs1.metadata),
              true, none) := by
          rw [hC.2]
          simp [Find, storeCollaborators, Store.findOn, Store.associateCache, Store.upsert,
            Store.setPrivileged, Store.read, findInitialized, hw]
          rw [← List.map_map, toATC_stored]
        refine ⟨v, NewGetVersionedSource (some v) s.resourceInstance.version vs1.metadata,
          hFind2, ?_, ?_, rfl, rfl, rfl, fun h => h.symm⟩
        · exact (Create_of_hit _ s ctx2 _ _ hFind2).1
        · rw [(Create_of_hit _ s ctx2 _ _ hFind2).2.1]
          intro ev hev
          rcases Find_trace_kind _ s _ ev hev with h1 | h1 <;> simp [h1]

/-- Witness of the amended C8: the git scenario of the spec on worker `w1`. -/
theorem Create_second_hits_witness :
    (Find gitCollaborators gitFetchSource emptyStore).result = (none, false, none) ∧
    (Create gitCollaborators gitFetchSource ⟨0⟩ emptyStore).result =
      .returned (some (gitVersionedSource (some gitVolume)), none) ∧
    ∃ v vs2,
      (Find gitCollaborators gitFetchSource
        (Create gitCollaborators gitFetchSource ⟨0⟩ emptyStore).world).result =
        (some vs2, true, none) ∧
      (Create gitCollaborators gitFetchSource ⟨1⟩
        (Create gitCollaborators gitFetchSource ⟨0⟩ emptyStore).world).result =
        .returned (some vs2, none) ∧
      (∀ ev ∈ (Create gitCollaborators gitFetchSource ⟨1⟩
        (Create gitCollaborators gitFetchSource ⟨0⟩ emptyStore).world).trace,
        ev.kind ≠ Kind.get) ∧
      vs2.volume = some v ∧
      vs2.metadata = (gitVersionedSource (some gitVolume)).metadata ∧
      vs2.version = gitFetchSource.resourceInstance.version ∧
      ((gitVersionedSource (some gitVolume)).version = gitFetchSource.resourceInstance.version →
        vs2.version = (gitVersionedSource (some gitVolume)).version) :=
  ⟨rfl, rfl, Create_second_hits provisionOutput fetchGit gitFetchSource ⟨0⟩ ⟨1⟩ emptyStore
    (gitVersionedSource (some gitVolume)) rfl rfl⟩

/-- C8 fails as stated: for the resource instance at version `latest`, the
first `Create` misses and returns the executor result at version `abc123`;
the second `Create` hits and returns version `latest`, not the version of the
executor result. -/
theorem Create_second_version_differs :
    (Find gitCollaborators latestFetchSource emptyStore).result = (none, false, none) ∧
    (Create gitCollaborators latestFetchSource ⟨0⟩ emptyStore).result =
      .returned (some (gitVersionedSource (some gitVolume)), none) ∧
    (gitVersionedSource (some gitVolume)).version = [("ref", "abc123")] ∧
    (Create gitCollaborators latestFetchSource ⟨1⟩
      (Create gitCollaborators latestFetchSource ⟨0⟩ emptyStore).world).result =
      .returned (some (NewGetVersionedSource (some gitVolume) [("ref", "latest")]
        (gitVersionedSource (some gitVolume)).metadata), none) ∧
    (NewGetVersionedSource (some gitVolume) [("ref", "latest")]
      (gitVersionedSource (some gitVolume)).metadata).version ≠
      (gitVersionedSource (some gitVolume)).version :=
  ⟨rfl, rfl, rfl, rfl, by decide⟩

/-- C9: `Create` swallows no collaborator error.  When a call in the trace of
`Create` returned an error `e`, it is the last call of the trace (no later
collaborator is called, so a failed downgrade is never followed by the cache
association) and `Create` returns `(nil, e)`. -/
theorem Create_error_stops {W : Type} (c : Collaborators W) (s : resourceInstanceFetchSource)
    (ctx : Context) (w : W) (pre post : List Event) (ev : Event) (e : Err)
    (h : (Create c s ctx w).trace = pre ++ ev :: post) (he : ev.err? = some e) :
    post = [] ∧ (Create c s ctx w).result = .returned (none, some e) := by
  rcases Create_cases c s ctx w with
    ⟨e1, ht, hr⟩ | ⟨v, e1, ht, hr⟩ | ⟨v, md, ht, hr⟩ | ⟨e1, ht, hr⟩ | ⟨r, e1, ht, hr, -, -⟩ |
    ⟨r, vs, hv, ht, hr⟩ | ⟨r, vs, v, e1, hv, ht, hr⟩ | ⟨r, vs, v, e1, hv, ht, hr⟩ |
    ⟨r, vs, v, e1, hv, ht, hr⟩ | ⟨r, vs, v, hv, ht, hr⟩
  all_goals
    rw [ht] at h
    rw [hr]
    simp [List.cons_eq_append_iff] at h
    casesm* _ ∨ _, _ ∧ _, ∃ _, _ <;> subst_vars <;> simp_all [Event.err?]

/-- Witness of C9: the scripted execution whose privilege downgrade fails. -/
theorem Create_error_stops_witness :
    (Create (scripted downgradeFailsScript) gitFetchSource ⟨0⟩ ()).trace =
      (Create (scripted downgradeFailsScript) gitFetchSource ⟨0⟩ ()).trace.take 3 ++
      Event.setPrivileged gitVolume false (.error "downgrade failed") ::
      (Create (scripted downgradeFailsScript) gitFetchSource ⟨0⟩ ()).trace.drop 4 ∧
    (Event.setPrivileged gitVolume false (.error "downgrade failed")).err? =
      some "downgrade failed" ∧
    (Create (scripted downgradeFailsScript) gitFetchSource ⟨0⟩ ()).trace.drop 4 = [] ∧
    (Create (scripted downgradeFailsScript) gitFetchSource ⟨0⟩ ()).result =
      .returned (none, some "downgrade failed") :=
  ⟨rfl, rfl, Create_error_stops (scripted downgradeFailsScript) gitFetchSource ⟨0⟩ () _ _
    (Event.setPrivileged gitVolume false (.error "downgrade failed")) "downgrade failed"
    rfl rfl⟩

/-- C10: for two fetch sources built by `NewResourceInstanceFetchSource` from the
same resource instance and workers of the same name, `LockName` returns the
same result, whatever their logger, resource types, tags, team, session,
metadata, delegate and cache factory are and whatever the world is; the
result is `resourceInstance.LockName(worker.Name())` (so it fails exactly
when that derivation fails), that derivation is the only collaborator call,
and the world is left as it is. -/
theorem LockName_deterministic {W : Type} (c : Collaborators W) (ri : ResourceInstance)
    (wk1 wk2 : Worker) (l1 l2 : Logger) (rt1 rt2 : List String) (tags1 tags2 : List String)
    (team1 team2 : Int) (sess1 sess2 : Session) (md1 md2 : Metadata)
    (d1 d2 : ImageFetchingDelegate) (f1 f2 : ResourceCacheFactory) (w1 w2 : W)
    (h : wk1.name = wk2.name) :
    (LockName c (NewResourceInstanceFetchSource l1 ri wk1 rt1 tags1 team1 sess1 md1 d1 f1)
      w1).result =
      (LockName c (NewResourceInstanceFetchSource l2 ri wk2 rt2 tags2 team2 sess2 md2 d2 f2)
        w2).result ∧
    (LockName c (NewResourceInstanceFetchSource l1 ri wk1 rt1 tags1 team1 sess1 md1 d1 f1)
      w1).result = c.lockName ri wk1.name ∧
    (LockName c (NewResourceInstanceFetchSource l1 ri wk1 rt1 tags1 team1 sess1 md1 d1 f1)
      w1).trace = [Event.lockName ri wk1.name (c.lockName ri wk1.name)] ∧
    (LockName c (NewResourceInstanceFetchSource l1 ri wk1 rt1 tags1 team1 sess1 md1 d1 f1)
      w1).world = w1 := by
  refine ⟨?_, rfl, rfl, rfl⟩
  simp [LockName, NewResourceInstanceFetchSource, h]

/-- Witness of C10: two fetch sources of the git instance on workers named `w1`
that differ in every other field, with a lock name that cannot be derived. -/
theorem LockName_deterministic_witness :
    (⟨"w1", "linux"⟩ : Worker).name = (⟨"w1", "darwin"⟩ : Worker).name ∧
    (LockName (scripted lockFailsScript) (NewResourceInstanceFetchSource ⟨"a"⟩ gitInstance
      ⟨"w1", "linux"⟩ [] [] 1 ⟨⟨"get", "x"⟩⟩ ⟨[]⟩ ⟨1, 2⟩ ⟨0⟩) ()).result =
      (LockName (scripted lockFailsScript) (NewResourceInstanceFetchSource ⟨"b"⟩ gitInstance
        ⟨"w1", "darwin"⟩ ["git"] ["tag"] 2 ⟨⟨"check", "y"⟩⟩ ⟨["A=b"]⟩ ⟨3, 4⟩ ⟨9⟩) ()).result ∧
    (LockName (scripted lockFailsScript) (NewResourceInstanceFetchSource ⟨"a"⟩ gitInstance
      ⟨"w1", "linux"⟩ [] [] 1 ⟨⟨"get", "x"⟩⟩ ⟨[]⟩ ⟨1, 2⟩ ⟨0⟩) ()).result = .error "malformed" :=
  have h := LockName_deterministic (scripted lockFailsScript) gitInstance
    ⟨"w1", "linux"⟩ ⟨"w1", "darwin"⟩
    ⟨"a"⟩ ⟨"b"⟩ [] ["git"] [] ["tag"] 1 2 ⟨⟨"get", "x"⟩⟩ ⟨⟨"check", "y"⟩⟩ ⟨[]⟩ ⟨["A=b"]⟩
    ⟨1, 2⟩ ⟨3, 4⟩ ⟨0⟩ ⟨9⟩ () () rfl
  ⟨rfl, h.1, h.2.1⟩

end Concourse
